import Mathlib

/-!
Verification of the prism overlay controller (src/main.go) against its
natural-language specification.

The program wires three event sources to one primary webview window:

* a global hotkey (Option+Space), whose keydown loop branches on the live
  `window.IsVisible()` report and then calls `Hide()` or `Show(); Focus()`
  (src/main.go lines 119-131);
* a `WindowLostFocus` subscription whose handler unconditionally calls
  `window.Hide()` (lines 98-100);
* an `escape` key binding whose handler calls `window.Hide()` (lines 72-76);
* a tray-menu item whose click handler creates a brand-new webview window and
  touches nothing else (lines 89-95).

The embedding below translates these handlers directly.  Window calls are
recorded as a trace; the OS visibility flag is updated by the calls
themselves (`show` makes the window visible, `hide` makes it invisible,
`focus` leaves visibility unchanged), which models the spec's idempotent
WindowHandle operations.
-/

namespace Prism

/-- A WindowHandle command issued by the program: `window.Show()`,
`window.Hide()` or `window.Focus()`. -/
inductive WCall
| show
| hide
| focus
deriving DecidableEq, Repr

/-- An input event arriving at the program: a global-hotkey keydown, a
`WindowLostFocus` notification, an `escape` keypress delivered to the focused
window, or a click on the tray-menu item. -/
inductive Event
| hotkeyPressed
| focusLost
| escapePressed
| trayClick
deriving DecidableEq, Repr

/-- Observable program state: the primary window's OS visibility and the
number of auxiliary windows spawned from the tray menu. -/
structure AppState where
  visible : Bool
  auxWindows : Nat
deriving DecidableEq, Repr

/-- Effect of one WindowHandle call on the OS visibility flag:
`Show()` makes the window visible, `Hide()` makes it invisible, `Focus()`
does not change visibility. -/
def applyCall (v : Bool) : WCall → Bool
| WCall.show => true
| WCall.hide => false
| WCall.focus => v

/-- Effect of a sequence of WindowHandle calls on the OS visibility flag. -/
def applyCalls (v : Bool) (cs : List WCall) : Bool :=
  cs.foldl applyCall v

/-- Body of the hotkey keydown loop (src/main.go lines 122-129): the branch
is taken on the `window.IsVisible()` report passed in.  If the report is
true the program calls `Hide()`; otherwise it calls `Show()` then
`Focus()`. -/
def handleHotkeyKeydown (isVisibleNow : Bool) : List WCall :=
  if isVisibleNow then [WCall.hide] else [WCall.show, WCall.focus]

/-- The `WindowLostFocus` handler (src/main.go lines 98-100): it calls
`window.Hide()` unconditionally, with no state check. -/
def focusLostHandler : List WCall := [WCall.hide]

/-- The `escape` key binding handler (src/main.go lines 72-76): it calls
`window.Hide()`. -/
def escapeBinding : List WCall := [WCall.hide]

/-- One event processed by the program, under an OS whose `IsVisible()`
report is consistent (it returns the visibility committed by the calls
issued so far).  Returns the next state and the WindowHandle calls issued
while handling the event.  The tray click handler (src/main.go lines 90-95)
creates one new independent window and issues no call on the primary
window. -/
def step (s : AppState) : Event → AppState × List WCall
| Event.hotkeyPressed =>
    let cs := handleHotkeyKeydown s.visible
    ({ s with visible := applyCalls s.visible cs }, cs)
| Event.focusLost =>
    ({ s with visible := applyCalls s.visible focusLostHandler }, focusLostHandler)
| Event.escapePressed =>
    ({ s with visible := applyCalls s.visible escapeBinding }, escapeBinding)
| Event.trayClick =>
    ({ s with auxWindows := s.auxWindows + 1 }, [])

/-- Process a list of events in order, collecting all calls issued. -/
def run (s : AppState) : List Event → AppState × List WCall
| [] => (s, [])
| e :: es =>
    let r := step s e
    let r2 := run r.1 es
    (r2.1, r.2 ++ r2.2)

/-- The hotkey loop executed against an arbitrary list of `IsVisible()`
reports, one report per press (src/main.go lines 119-131): each press
branches only on its report, never on any tracked state. -/
def runReports : List Bool → List WCall
| [] => []
| r :: rs => handleHotkeyKeydown r ++ runReports rs

/-- The spec's abstract visibility state (spec section 4.3). -/
inductive VisibilityState
| Visible
| Hidden
deriving DecidableEq, Repr

/-- The spec's abstract transition table (spec section 4.3), stated from the
spec's words for the refinement comparison: Hidden x HotkeyPressed issues
show, focus and goes Visible; Visible x HotkeyPressed issues hide and goes
Hidden; Visible x FocusLost issues hide and goes Hidden; Hidden x FocusLost
is a no-op.  Events outside the table leave the state unchanged. -/
def specVisibilityStep : VisibilityState → Event → VisibilityState × List WCall
| VisibilityState.Hidden, Event.hotkeyPressed =>
    (VisibilityState.Visible, [WCall.show, WCall.focus])
| VisibilityState.Visible, Event.hotkeyPressed =>
    (VisibilityState.Hidden, [WCall.hide])
| VisibilityState.Visible, Event.focusLost =>
    (VisibilityState.Hidden, [WCall.hide])
| VisibilityState.Hidden, Event.focusLost =>
    (VisibilityState.Hidden, [])
| s, _ => (s, [])

/-- Run of the spec's abstract machine over a list of events. -/
def specRun (s : VisibilityState) : List Event → VisibilityState × List WCall
| [] => (s, [])
| e :: es =>
    let r := specVisibilityStep s e
    let r2 := specRun r.1 es
    (r2.1, r.2 ++ r2.2)

/-- Abstraction map from the OS visibility flag to the spec's state. -/
def toVS (b : Bool) : VisibilityState :=
  if b then VisibilityState.Visible else VisibilityState.Hidden

/-- Outcome of `handleHotkey`'s registration check (src/main.go lines
112-117): on a `Register()` error the function logs and returns, so the
keydown loop never starts; on success the loop goroutine is started. -/
inductive HotkeyStatus
| loopStarted
| disabled
deriving DecidableEq, Repr

/-- `handleHotkey` (src/main.go lines 112-132) as a function of whether
`Register()` succeeded. -/
def handleHotkey (registerOk : Bool) : HotkeyStatus :=
  if registerOk then HotkeyStatus.loopStarted else HotkeyStatus.disabled

/-- How `handleHotkey` exits: both branches return normally; the error
branch is `log.Println(err); return`, never `log.Fatal` or a panic. -/
inductive ProcOutcome
| returned
| fatalExit
deriving DecidableEq, Repr

/-- Exit behaviour of `handleHotkey` (src/main.go lines 112-117): a
registration error is logged and the function returns; it never terminates
the process. -/
def handleHotkeyOutcome (_registerOk : Bool) : ProcOutcome :=
  ProcOutcome.returned

/-- One event processed by the whole program given the hotkey registration
outcome: when the keydown loop never started, hotkey presses reach no
handler and nothing happens; every other handler is registered in `main`
independently of the hotkey (src/main.go lines 72-100). -/
def stepSys : HotkeyStatus → AppState → Event → AppState × List WCall
| HotkeyStatus.disabled, s, Event.hotkeyPressed => (s, [])
| _, s, e => step s e

/-!
Fine-grained concurrency model.  The hotkey keydown loop runs in its own
goroutine (src/main.go line 119) and the `WindowLostFocus` handler runs on
the UI event context (lines 98-100); nothing in the source serializes them.
Each handler is split into its primitive window operations: the hotkey
handler first reads `window.IsVisible()`, then performs the calls of the
branch that read selected; the focus-lost handler performs one `Hide()`.
A schedule interleaves the two threads one primitive operation at a time.
-/

/-- Which thread issued a call: the hotkey goroutine or the UI event
context running the focus-lost handler. -/
inductive Source
| hotkeySrc
| uiSrc
deriving DecidableEq, Repr

/-- Progress of the hotkey goroutine through one keydown iteration: it has
not yet read `IsVisible()`, or it still has the listed calls of its chosen
branch to perform, or it is finished. -/
inductive HKPhase
| beforeRead
| running (ops : List WCall)
| finished
deriving DecidableEq, Repr

/-- A configuration of the two concurrently running handlers: current OS
visibility, progress of each thread, and the trace of calls issued so far
tagged with their thread. -/
structure Conc where
  vis : Bool
  hk : HKPhase
  flDone : Bool
  trace : List (Source × WCall)
deriving DecidableEq, Repr

/-- One primitive step of the hotkey goroutine: read `IsVisible()` and
commit to a branch, or perform the next call of the committed branch. -/
def hkMicro (c : Conc) : Conc :=
  match c.hk with
  | HKPhase.beforeRead => { c with hk := HKPhase.running (handleHotkeyKeydown c.vis) }
  | HKPhase.running [] => { c with hk := HKPhase.finished }
  | HKPhase.running (op :: rest) =>
      { c with vis := applyCall c.vis op,
               hk := match rest with
                     | [] => HKPhase.finished
                     | _ => HKPhase.running rest,
               trace := c.trace ++ [(Source.hotkeySrc, op)] }
  | HKPhase.finished => c

/-- One primitive step of the focus-lost handler: its single `Hide()`
call. -/
def flMicro (c : Conc) : Conc :=
  if c.flDone then c
  else { c with vis := applyCall c.vis WCall.hide,
                flDone := true,
                trace := c.trace ++ [(Source.uiSrc, WCall.hide)] }

/-- One scheduler step: `true` lets the hotkey goroutine act, `false` lets
the focus-lost handler act. -/
def cstep (c : Conc) (pickHotkey : Bool) : Conc :=
  if pickHotkey then hkMicro c else flMicro c

/-- Run a schedule of thread picks from a configuration. -/
def crun (c : Conc) : List Bool → Conc
| [] => c
| b :: bs => crun (cstep c b) bs

/-- Starting configuration: one pending hotkey press and one pending
focus-lost notification, OS visibility `v`, nothing issued yet. -/
def initConc (v : Bool) : Conc :=
  { vis := v, hk := HKPhase.beforeRead, flDone := false, trace := [] }

/-- Both handlers have run to completion. -/
def bothDone (c : Conc) : Prop :=
  c.hk = HKPhase.finished ∧ c.flDone = true

instance (c : Conc) : Decidable (bothDone c) := by
  unfold bothDone
  infer_instance

/-- The serial schedule that runs the hotkey handler to completion first,
then the focus-lost handler. -/
def hkFirstSched : List Bool := [true, true, true, false]

/-- The serial schedule that runs the focus-lost handler first, then the
hotkey handler to completion. -/
def flFirstSched : List Bool := [false, true, true, true]

/-- Outcome of the hotkey-first serial order from visibility `v`. -/
def serialHK (v : Bool) : Conc := crun (initConc v) hkFirstSched

/-- Outcome of the focus-lost-first serial order from visibility `v`. -/
def serialFL (v : Bool) : Conc := crun (initConc v) flFirstSched

/-!  Theorems settling the claims.  -/

/-- C2: for every HotkeyPressed event, if the window is hidden the program
issues `show()` then `focus()` and the window becomes visible; if the
window is visible the program issues `hide()` and the window becomes
hidden.  The auxiliary-window count is untouched in both cases. -/
theorem hotkey_transition_table (a : Nat) :
    step { visible := false, auxWindows := a } Event.hotkeyPressed
      = ({ visible := true, auxWindows := a }, [WCall.show, WCall.focus])
  ∧ step { visible := true, auxWindows := a } Event.hotkeyPressed
      = ({ visible := false, auxWindows := a }, [WCall.hide]) := by
  constructor <;> rfl

/-- C3 (counterexample): a FocusLost event delivered while the window is
already hidden does not produce zero WindowHandle calls — the handler at
src/main.go lines 98-100 calls `window.Hide()` unconditionally. -/
theorem focusLost_hidden_calls_cx :
    (step { visible := false, auxWindows := 0 } Event.focusLost).2 ≠ [] := by
  decide

/-- C3 (amended): a FocusLost event delivered while the window is already
hidden issues exactly one `hide()` call — an idempotent no-op on the OS
state — and leaves the state unchanged at Hidden; no `show()` or `focus()`
is issued. -/
theorem focusLost_hidden_idempotent_hide (a : Nat) :
    step { visible := false, auxWindows := a } Event.focusLost
      = ({ visible := false, auxWindows := a }, [WCall.hide]) := by
  rfl

/-- C4 (counterexample): delivering [HotkeyPressed, HotkeyPressed,
FocusLost] from Hidden does not issue exactly `show, focus, hide` — the
trailing FocusLost is not call-free, so a fourth call (`hide`) appears. -/
theorem toggle_toggle_focusLost_cx :
    (run { visible := false, auxWindows := 0 }
        [Event.hotkeyPressed, Event.hotkeyPressed, Event.focusLost]).2
      ≠ [WCall.show, WCall.focus, WCall.hide] := by
  decide

/-- C4 (amended): delivering [HotkeyPressed, HotkeyPressed, FocusLost]
from Hidden ends in Hidden with calls `show, focus, hide, hide`: the
trailing FocusLost changes no state but issues one extra idempotent
`hide()` rather than zero calls. -/
theorem toggle_toggle_focusLost_run :
    run { visible := false, auxWindows := 0 }
        [Event.hotkeyPressed, Event.hotkeyPressed, Event.focusLost]
      = ({ visible := false, auxWindows := 0 },
         [WCall.show, WCall.focus, WCall.hide, WCall.hide]) := by
  rfl

/-- C5: from Hidden, delivering [HotkeyPressed, HotkeyPressed] returns the
window to Hidden with exactly one `show()` and exactly one `hide()`
issued, the `show` strictly before the `hide`. -/
theorem toggle_involution :
    (run { visible := false, auxWindows := 0 }
        [Event.hotkeyPressed, Event.hotkeyPressed]).1
      = { visible := false, auxWindows := 0 }
  ∧ (run { visible := false, auxWindows := 0 }
        [Event.hotkeyPressed, Event.hotkeyPressed]).2.count WCall.show = 1
  ∧ (run { visible := false, auxWindows := 0 }
        [Event.hotkeyPressed, Event.hotkeyPressed]).2.count WCall.hide = 1
  ∧ (run { visible := false, auxWindows := 0 }
        [Event.hotkeyPressed, Event.hotkeyPressed]).2.indexOf WCall.show
      < (run { visible := false, auxWindows := 0 }
        [Event.hotkeyPressed, Event.hotkeyPressed]).2.indexOf WCall.hide := by
  decide

/-- C10: an `escape` keypress delivered to the focused overlay window hides
the primary window — one `hide()` call, visibility becomes false, no
auxiliary window is touched.  This trigger is wired through the window's
key bindings (src/main.go lines 72-76), separate from the hotkey and
focus-lost paths. -/
theorem escape_hides_window (v : Bool) (a : Nat) :
    step { visible := v, auxWindows := a } Event.escapePressed
      = ({ visible := false, auxWindows := a }, [WCall.hide]) := by
  cases v <;> rfl

/-- C1 (counterexample): the hotkey branch is decided by the fresh
`IsVisible()` report, not by a tracked controller state.  For the first
press of the sequence [HotkeyPressed] the abstract machine, starting in its
initial state Hidden, issues `show, focus`; the code, handed an OS report
of `true` at that moment, issues `hide` instead. -/
theorem hotkey_uses_os_query_cx :
    runReports [true]
      ≠ (specRun VisibilityState.Hidden [Event.hotkeyPressed]).2 := by
  decide

/-- C1 (amended): the transition for a hotkey press is chosen from the live
`IsVisible()` report; only when each report agrees with the last-committed
visibility (the consistent-OS run `run`) do the code's hotkey transitions
coincide with the abstract state machine's: for every number of presses and
every starting visibility, the calls issued are equal and the final states
correspond under the abstraction map. -/
theorem hotkey_consistent_refines_spec (n : Nat) (v : Bool) (a : Nat) :
    (run { visible := v, auxWindows := a }
        (List.replicate n Event.hotkeyPressed)).2
      = (specRun (toVS v) (List.replicate n Event.hotkeyPressed)).2
  ∧ toVS (run { visible := v, auxWindows := a }
        (List.replicate n Event.hotkeyPressed)).1.visible
      = (specRun (toVS v) (List.replicate n Event.hotkeyPressed)).1 := by
  induction n generalizing v a with
  | zero => cases v <;> simp [run, specRun, toVS]
  | succ n ih =>
    cases v with
    | false =>
      simpa [List.replicate_succ, run, specRun, step, specVisibilityStep,
             handleHotkeyKeydown, applyCalls, applyCall, toVS] using ih true a
    | true =>
      simpa [List.replicate_succ, run, specRun, step, specVisibilityStep,
             handleHotkeyKeydown, applyCalls, applyCall, toVS] using ih false a

/-- C7: when `Register()` fails, `handleHotkey` logs and returns — it never
terminates the process — and the keydown loop never starts, so hotkey
presses cause nothing; the focus-lost handler, registered in `main`
independently, still hides the window as usual. -/
theorem registration_failure_isolated (ok : Bool) (s : AppState)
    (h : ok = false) :
    handleHotkey ok = HotkeyStatus.disabled
  ∧ handleHotkeyOutcome ok = ProcOutcome.returned
  ∧ stepSys (handleHotkey ok) s Event.hotkeyPressed = (s, [])
  ∧ stepSys (handleHotkey ok) s Event.focusLost
      = ({ s with visible := false }, [WCall.hide]) := by
  subst h
  refine ⟨rfl, rfl, rfl, ?_⟩
  cases s with
  | mk v a => cases v <;> rfl

/-- Witness for C7 at the concrete input `ok := false`,
`s := ⟨true, 0⟩`. -/
theorem registration_failure_isolated_witness :
    (false = false)
  ∧ (handleHotkey false = HotkeyStatus.disabled
     ∧ handleHotkeyOutcome false = ProcOutcome.returned
     ∧ stepSys (handleHotkey false) { visible := true, auxWindows := 0 }
         Event.hotkeyPressed = ({ visible := true, auxWindows := 0 }, [])
     ∧ stepSys (handleHotkey false) { visible := true, auxWindows := 0 }
         Event.focusLost = ({ visible := false, auxWindows := 0 }, [WCall.hide])) :=
  ⟨rfl, registration_failure_isolated false
          { visible := true, auxWindows := 0 } rfl⟩

/-- C8: n consecutive tray-menu activations create n new independent
windows, issue no WindowHandle call on the primary window, and neither read
nor change its visibility. -/
theorem tray_activations_independent (k : Nat) (s : AppState) :
    (run s (List.replicate k Event.trayClick)).1.auxWindows
        = s.auxWindows + k
  ∧ (run s (List.replicate k Event.trayClick)).1.visible = s.visible
  ∧ (run s (List.replicate k Event.trayClick)).2 = [] := by
  induction k generalizing s with
  | zero => simp [run]
  | succ k ih =>
    have h := ih { s with auxWindows := s.auxWindows + 1 }
    refine ⟨?_, ?_, ?_⟩
    · simp [List.replicate_succ, run, step, h.1]
      omega
    · simp [List.replicate_succ, run, step, h.2.1]
    · simp [List.replicate_succ, run, step, h.2.2]

/-- C9 (counterexample): nothing serializes the two handlers.  The schedule
that lets the hotkey goroutine read `IsVisible()` (seeing `true`), then
lets the focus-lost handler run its `hide()`, then lets the hotkey
goroutine finish, is a complete execution whose call trace matches neither
serial order — the two transitions interleave. -/
theorem concurrent_interleaving_cx :
    bothDone (crun (initConc true) [true, false, true])
  ∧ (crun (initConc true) [true, false, true]).trace
      ≠ (serialHK true).trace
  ∧ (crun (initConc true) [true, false, true]).trace
      ≠ (serialFL true).trace := by
  decide

/-- C9 (amended): the hotkey goroutine and the focus-lost handler may
interleave their window calls (no serialization point exists in the code),
but every complete interleaved execution still ends with the visibility of
one of the two serial orders. -/
theorem interleaving_final_state_serial (v : Bool) (sched : List Bool)
    (h : bothDone (crun (initConc v) sched)) :
    (crun (initConc v) sched).vis = (serialHK v).vis
  ∨ (crun (initConc v) sched).vis = (serialFL v).vis := by
  have h1 : (serialHK v).vis = false := by cases v <;> decide
  have h2 : (serialFL v).vis = true := by cases v <;> decide
  cases hv : (crun (initConc v) sched).vis with
  | false => exact Or.inl (by rw [h1])
  | true => exact Or.inr (by rw [h2])

/-- Witness for C9's amended theorem at the concrete complete schedule
`[true, true, false]` from visibility `true`. -/
theorem interleaving_final_state_serial_witness :
    bothDone (crun (initConc true) [true, true, false])
  ∧ ((crun (initConc true) [true, true, false]).vis = (serialHK true).vis
     ∨ (crun (initConc true) [true, true, false]).vis = (serialFL true).vis) :=
  ⟨by decide, interleaving_final_state_serial true [true, true, false] (by decide)⟩

end Prism
